import Mathlib

/-!
Verification of the AIS/ADS-B WiFi Manager forwarding configuration layer.

The front-end JavaScript (`web_interface/static/js/main.js` and the AIS
configuration script) is embedded directly.  The forwarding daemon itself
(`adsb_server/adsb_server.py` and the Flask back end) is not part of the
available sources; its control interface and filter are modelled from the
design specification, and every such definition is marked
`Modelled from the spec`.

Strings manipulated by the JavaScript are embedded as `List Char`.
-/

namespace AISWiFiManager

/-! ### Character-level embedding of the JavaScript string operations -/

/-- Embedding of JavaScript `String.prototype.toUpperCase` on a single ASCII
character: a lowercase letter (code 97..122) is mapped 32 code points down,
every other character is left unchanged. -/
def jsUpperChar (c : Char) : Char :=
  if 97 ≤ c.toNat ∧ c.toNat ≤ 122 then Char.ofNat (c.toNat - 32) else c

/-- Embedding of JavaScript `s.toUpperCase()` on a whole string. -/
def jsToUpperCase (s : List Char) : List Char := s.map jsUpperChar

/-- The whitespace predicate used by trimming. -/
def wsChar (c : Char) : Bool := c.isWhitespace

/-- Removal of leading whitespace. -/
def ltrim (s : List Char) : List Char := s.dropWhile wsChar

/-- Removal of trailing whitespace. -/
def rtrim (s : List Char) : List Char := ((s.reverse).dropWhile wsChar).reverse

/-- Embedding of JavaScript `s.trim()`: leading and trailing whitespace
removed. -/
def jsTrim (s : List Char) : List Char := rtrim (ltrim s)

/-- Embedding of the ICAO allow-list construction in `saveADSBConfig`
(`main.js` lines 417-424): when the selected mode is `specific` the input is
split on commas, each fragment trimmed and upper-cased, and empty fragments
dropped; otherwise the submitted list is empty. -/
def saveADSBConfigIcaoList (filterMode : String) (icaoInput : List Char) :
    List (List Char) :=
  if filterMode = "specific" then
    (((icaoInput.splitOn ',').map (fun s => jsToUpperCase (jsTrim s))).filter
      (fun s => !s.isEmpty))
  else []

/-! ### Facts about the character operations -/

theorem char_toNat_ofNat_lt (n : Nat) (h : n < 55296) :
    (Char.ofNat n).toNat = n := by
  have hv : n.isValidChar := Or.inl h
  rw [Char.ofNat, dif_pos hv]
  rfl

theorem jsUpperChar_toNat (c : Char) (h : 97 ≤ c.toNat ∧ c.toNat ≤ 122) :
    (jsUpperChar c).toNat = c.toNat - 32 := by
  rw [jsUpperChar, if_pos h]
  exact char_toNat_ofNat_lt _ (by omega)

theorem char_ne_of_toNat_ne {c d : Char} (h : c.toNat ≠ d.toNat) : c ≠ d :=
  fun e => h (by rw [e])

theorem not_whitespace_of_toNat (c : Char) (h : 33 ≤ c.toNat) :
    c.isWhitespace = false := by
  have h1 : c ≠ ' ' := char_ne_of_toNat_ne (by
    have : (' ').toNat = 32 := rfl
    omega)
  have h2 : c ≠ '\t' := char_ne_of_toNat_ne (by
    have : ('\t').toNat = 9 := rfl
    omega)
  have h3 : c ≠ '\r' := char_ne_of_toNat_ne (by
    have : ('\r').toNat = 13 := rfl
    omega)
  have h4 : c ≠ '\n' := char_ne_of_toNat_ne (by
    have : ('\n').toNat = 10 := rfl
    omega)
  simp [Char.isWhitespace, h1, h2, h3, h4]

theorem wsChar_jsUpperChar (c : Char) : wsChar (jsUpperChar c) = wsChar c := by
  by_cases h : 97 ≤ c.toNat ∧ c.toNat ≤ 122
  · have hup : (jsUpperChar c).toNat = c.toNat - 32 := jsUpperChar_toNat c h
    have h1 : (jsUpperChar c).isWhitespace = false :=
      not_whitespace_of_toNat _ (by omega)
    have h2 : c.isWhitespace = false := not_whitespace_of_toNat _ (by omega)
    simp [wsChar, h1, h2]
  · simp [wsChar, jsUpperChar, if_neg h]

theorem jsUpperChar_idem (c : Char) :
    jsUpperChar (jsUpperChar c) = jsUpperChar c := by
  by_cases h : 97 ≤ c.toNat ∧ c.toNat ≤ 122
  · have hup : (jsUpperChar c).toNat = c.toNat - 32 := jsUpperChar_toNat c h
    have : ¬(97 ≤ (jsUpperChar c).toNat ∧ (jsUpperChar c).toNat ≤ 122) := by
      omega
    rw [jsUpperChar, if_neg this]
  · have hc : jsUpperChar c = c := by rw [jsUpperChar, if_neg h]
    rw [hc]
    exact hc

theorem jsToUpperCase_idem (s : List Char) :
    jsToUpperCase (jsToUpperCase s) = jsToUpperCase s := by
  simp only [jsToUpperCase, List.map_map]
  exact List.map_congr_left (fun c _ => jsUpperChar_idem c)

theorem dropWhile_length_le (p : Char → Bool) (l : List Char) :
    (l.dropWhile p).length ≤ l.length := by
  induction l with
  | nil => exact Nat.le_refl 0
  | cons a l ih =>
    by_cases h : p a = true
    · rw [List.dropWhile_cons, if_pos h]
      exact Nat.le_trans ih (Nat.le_succ _)
    · rw [List.dropWhile_cons, if_neg h]

theorem dropWhile_dropWhile_same (p : Char → Bool) (l : List Char) :
    (l.dropWhile p).dropWhile p = l.dropWhile p := by
  induction l with
  | nil => rfl
  | cons a l ih =>
    by_cases h : p a = true
    · simp [List.dropWhile_cons, h, ih]
    · simp [List.dropWhile_cons, h]

theorem ltrim_of_head (l : List Char)
    (h : ∀ a, l.head? = some a → wsChar a = false) : ltrim l = l := by
  cases l with
  | nil => rfl
  | cons a l => simp [ltrim, List.dropWhile_cons, h a rfl]

theorem head_of_ltrim (l : List Char) (h : ltrim l = l) :
    ∀ a, l.head? = some a → wsChar a = false := by
  intro a ha
  cases l with
  | nil => cases ha
  | cons b l =>
    have hb : b = a := by
      simpa using ha
    subst hb
    by_contra hw
    rw [Bool.not_eq_false] at hw
    have h2 : ltrim (b :: l) = List.dropWhile wsChar l := by
      simp [ltrim, List.dropWhile_cons, hw]
    rw [h2] at h
    have hlen := congrArg List.length h
    have hle : (List.dropWhile wsChar l).length ≤ l.length :=
      dropWhile_length_le wsChar l
    simp at hlen
    omega

theorem ltrim_rtrim (l : List Char) (h : ltrim l = l) :
    ltrim (rtrim l) = rtrim l := by
  cases l with
  | nil => rfl
  | cons b l =>
    have hb : wsChar b = false := head_of_ltrim _ h b rfl
    have hbn : ¬ wsChar b = true := by simp [hb]
    apply ltrim_of_head
    intro a ha
    have hr : rtrim (b :: l) =
        (List.dropWhile wsChar (l.reverse ++ [b])).reverse := by
      simp [rtrim]
    rw [List.dropWhile_append] at hr
    by_cases hemp : (List.dropWhile wsChar l.reverse).isEmpty = true
    · rw [if_pos hemp] at hr
      have : rtrim (b :: l) = [b] := by
        rw [hr]
        simp [List.dropWhile_cons, hbn]
      rw [this] at ha
      have : b = a := by simpa using ha
      subst this
      exact hb
    · rw [if_neg hemp] at hr
      have : rtrim (b :: l) = b :: (List.dropWhile wsChar l.reverse).reverse := by
        rw [hr]
        simp
      rw [this] at ha
      have : b = a := by simpa using ha
      subst this
      exact hb

theorem rtrim_idem (l : List Char) : rtrim (rtrim l) = rtrim l := by
  simp only [rtrim, List.reverse_reverse]
  rw [dropWhile_dropWhile_same]

theorem jsTrim_idem (s : List Char) : jsTrim (jsTrim s) = jsTrim s := by
  have h1 : ltrim (ltrim s) = ltrim s := dropWhile_dropWhile_same _ _
  have h2 : ltrim (rtrim (ltrim s)) = rtrim (ltrim s) := ltrim_rtrim _ h1
  show rtrim (ltrim (rtrim (ltrim s))) = rtrim (ltrim s)
  rw [h2, rtrim_idem]

theorem wsChar_comp_jsUpperChar : wsChar ∘ jsUpperChar = wsChar :=
  funext wsChar_jsUpperChar

theorem ltrim_map_upper (s : List Char) :
    ltrim (jsToUpperCase s) = jsToUpperCase (ltrim s) := by
  simp only [ltrim, jsToUpperCase]
  rw [List.dropWhile_map, wsChar_comp_jsUpperChar]

theorem rtrim_map_upper (s : List Char) :
    rtrim (jsToUpperCase s) = jsToUpperCase (rtrim s) := by
  simp only [rtrim, jsToUpperCase]
  rw [← List.map_reverse, List.dropWhile_map, wsChar_comp_jsUpperChar,
    ← List.map_reverse]

theorem jsTrim_map_upper (s : List Char) :
    jsTrim (jsToUpperCase s) = jsToUpperCase (jsTrim s) := by
  simp only [jsTrim, ltrim_map_upper, rtrim_map_upper]

/-! ### The filter, modelled from the spec -/

/-- The filter mode: forward everything, or only allow-listed identifiers. -/
inductive FilterMode
  | all
  | specific
deriving DecidableEq

/-- Filter configuration: a mode and the allow-list of identifiers. -/
structure FilterConfig where
  mode : FilterMode
  icaoList : List (List Char)
deriving DecidableEq

/-- Modelled from the spec: the daemon's `Filter.accepts` lives in
`adsb_server/adsb_server.py`, which is not among the available sources.
Spec 4.2: when mode is `all` it always returns true; when mode is
`specific` it returns true iff the identifier is a member of the allow-list
under case-normalised (uppercase) comparison. -/
def accepts (f : FilterConfig) (identifier : List Char) : Bool :=
  match f.mode with
  | .all => true
  | .specific => decide (jsToUpperCase identifier ∈ f.icaoList)

/-! ### Claim theorems for the filter layer -/

/-- Claim C1: `accepts` returns true for every identifier when the mode is
`all`; when the mode is `specific` it returns true iff the uppercase form of
the identifier is in the allow-list, so for allow-list containing only
`A92F2D` both `A92F2D` and `a92f2d` are accepted and `B00000` is rejected. -/
theorem accepts_spec (f : FilterConfig) (identifier : List Char) :
    (f.mode = .all → accepts f identifier = true)
    ∧ (f.mode = .specific →
        (accepts f identifier = true ↔ jsToUpperCase identifier ∈ f.icaoList))
    ∧ accepts ⟨.specific, [String.toList "A92F2D"]⟩ (String.toList "A92F2D")
        = true
    ∧ accepts ⟨.specific, [String.toList "A92F2D"]⟩ (String.toList "a92f2d")
        = true
    ∧ accepts ⟨.specific, [String.toList "A92F2D"]⟩ (String.toList "B00000")
        = false := by
  obtain ⟨mode, icaoList⟩ := f
  refine ⟨?_, ?_, by decide, by decide, by decide⟩
  · rintro rfl
    rfl
  · rintro rfl
    simp [accepts]

/-- Witness for C1 at concrete inputs. -/
theorem accepts_spec_witness :
    accepts ⟨FilterMode.all, []⟩ (String.toList "B00000") = true
    ∧ (accepts ⟨FilterMode.specific, [String.toList "A92F2D"]⟩
        (String.toList "a92f2d") = true
      ↔ jsToUpperCase (String.toList "a92f2d") ∈ [String.toList "A92F2D"]) := by
  have h1 := accepts_spec ⟨FilterMode.all, []⟩ (String.toList "B00000")
  have h2 := accepts_spec ⟨FilterMode.specific, [String.toList "A92F2D"]⟩
    (String.toList "a92f2d")
  exact ⟨h1.1 rfl, h2.2.1 rfl⟩

/-- Claim C10: the allow-list submitted by `saveADSBConfig` contains only
non-empty, whitespace-trimmed, uppercase entries, and is exactly empty when
the selected mode is not `specific`. -/
theorem saveADSBConfigIcaoList_spec (filterMode : String) (input : List Char) :
    (filterMode ≠ "specific" → saveADSBConfigIcaoList filterMode input = [])
    ∧ (∀ s ∈ saveADSBConfigIcaoList filterMode input,
        s ≠ [] ∧ jsTrim s = s ∧ jsToUpperCase s = s) := by
  constructor
  · intro h
    simp [saveADSBConfigIcaoList, h]
  · intro s hs
    by_cases hm : filterMode = "specific"
    · rw [saveADSBConfigIcaoList, if_pos hm] at hs
      rw [List.mem_filter] at hs
      obtain ⟨hmem, hne⟩ := hs
      rw [List.mem_map] at hmem
      obtain ⟨frag, _, rfl⟩ := hmem
      refine ⟨?_, ?_, ?_⟩
      · intro he
        rw [he] at hne
        simp at hne
      · rw [jsTrim_map_upper, jsTrim_idem]
      · exact jsToUpperCase_idem _
    · rw [saveADSBConfigIcaoList, if_neg hm] at hs
      cases hs

/-- Witness for C10 at concrete inputs. -/
theorem saveADSBConfigIcaoList_spec_witness :
    saveADSBConfigIcaoList "all" (String.toList " a92f2d , b00000") = []
    ∧ (String.toList "A92F2D"
        ∈ saveADSBConfigIcaoList "specific" (String.toList " a92f2d ,, b00000")
      → String.toList "A92F2D" ≠ []) := by
  constructor
  · exact (saveADSBConfigIcaoList_spec "all"
      (String.toList " a92f2d , b00000")).1 (by decide)
  · intro hmem
    exact ((saveADSBConfigIcaoList_spec "specific"
      (String.toList " a92f2d ,, b00000")).2 _ hmem).1

/-! ### The endpoint publisher retry state machine, modelled from the spec -/

/-- Connection status of an endpoint or of the upstream link. -/
inductive ConnStatus
  | disconnected
  | connecting
  | connected
  | error
deriving DecidableEq

/-- Retry bookkeeping of one endpoint publisher. -/
structure RetryState where
  status : ConnStatus
  failCount : Nat
  delay : Nat
deriving DecidableEq

/-- Modelled from the spec: the per-endpoint publisher loop lives in the
daemon sources that are not available.  A freshly launched publisher is
connecting, has no recorded failures, and waits the configured minimum
delay between attempts. -/
def initRetry (minDelay : Nat) : RetryState :=
  ⟨.connecting, 0, minDelay⟩

/-- Modelled from the spec: one failed connection attempt.  Spec 4.3: the
retry counter is incremented and the next attempt is scheduled after a fixed
delay; after 3 attempts the status becomes `error` and the interval backs
off to a longer one (never below the configured minimum delay). -/
def failAttempt (minDelay : Nat) (s : RetryState) : RetryState :=
  if 3 ≤ s.failCount + 1 then
    ⟨.error, s.failCount + 1, max minDelay (2 * s.delay)⟩
  else
    ⟨.disconnected, s.failCount + 1, s.delay⟩

/-- The publisher state after `n` consecutive failed connection attempts. -/
def iterFail (minDelay : Nat) : Nat → RetryState
  | 0 => initRetry minDelay
  | n + 1 => failAttempt minDelay (iterFail minDelay n)

/-- Modelled from the spec: failure handling is independent per endpoint; a
failed attempt of endpoint `i` updates only that endpoint's state in the
fan-out system. -/
def failEndpointAt (minDelay : Nat) (sys : String → RetryState) (i : String) :
    String → RetryState :=
  fun j => if j = i then failAttempt minDelay (sys j) else sys j

theorem failAttempt_failCount (minDelay : Nat) (s : RetryState) :
    (failAttempt minDelay s).failCount = s.failCount + 1 := by
  rw [failAttempt]
  split <;> rfl

theorem iterFail_failCount (minDelay n : Nat) :
    (iterFail minDelay n).failCount = n := by
  induction n with
  | zero => rfl
  | succ n ih => rw [iterFail, failAttempt_failCount, ih]

theorem iterFail_delay_ge (minDelay n : Nat) :
    minDelay ≤ (iterFail minDelay n).delay := by
  induction n with
  | zero => exact Nat.le_refl _
  | succ n ih =>
    rw [iterFail, failAttempt]
    split
    · exact le_max_left _ _
    · exact ih

/-- Claim C2: after 3 consecutive failed connection attempts the publisher's
status becomes `error`, each subsequent retry delay is strictly greater than
the previous one yet never below the configured minimum delay, and a failure
of one endpoint leaves every other endpoint's state untouched. -/
theorem retry_policy (minDelay : Nat) (hmin : 0 < minDelay) :
    (iterFail minDelay 3).status = .error
    ∧ (∀ n, 3 ≤ n → (iterFail minDelay n).status = .error)
    ∧ (∀ n, minDelay ≤ (iterFail minDelay n).delay)
    ∧ (∀ n, 2 ≤ n →
        (iterFail minDelay n).delay < (iterFail minDelay (n + 1)).delay)
    ∧ (∀ (sys : String → RetryState) (i j : String), j ≠ i →
        failEndpointAt minDelay sys i j = sys j) := by
  have herr : ∀ n, 3 ≤ n → (iterFail minDelay n).status = .error := by
    intro n hn
    obtain ⟨k, rfl⟩ : ∃ k, n = k + 1 := ⟨n - 1, by omega⟩
    rw [iterFail, failAttempt, if_pos (by rw [iterFail_failCount]; omega)]
  refine ⟨herr 3 (by omega), herr, iterFail_delay_ge minDelay, ?_, ?_⟩
  · intro n hn
    have hd : minDelay ≤ (iterFail minDelay n).delay := iterFail_delay_ge _ _
    rw [iterFail, failAttempt, if_pos (by rw [iterFail_failCount]; omega)]
    have : (iterFail minDelay n).delay
        ≤ max minDelay (2 * (iterFail minDelay n).delay) := by
      have := le_max_right minDelay (2 * (iterFail minDelay n).delay)
      omega
    show (iterFail minDelay n).delay < max minDelay (2 * (iterFail minDelay n).delay)
    have h2 := le_max_right minDelay (2 * (iterFail minDelay n).delay)
    omega
  · intro sys i j hj
    rw [failEndpointAt, if_neg hj]

/-- Witness for C2 with minimum delay 5. -/
theorem retry_policy_witness :
    (iterFail 5 3).status = ConnStatus.error ∧ (iterFail 5 2).delay < (iterFail 5 3).delay := by
  have h := retry_policy 5 (by decide)
  exact ⟨h.1, h.2.2.2.1 2 (by decide)⟩

/-! ### The forwarding coordinator, modelled from the spec -/

/-- A configured forwarding endpoint. -/
structure Endpoint where
  id : String
  name : String
  host : String
  port : Nat
  enabled : Bool
deriving DecidableEq

/-- The live state of one launched endpoint publisher. -/
structure PubState where
  endpointId : String
  status : ConnStatus
deriving DecidableEq

/-- The persisted configuration: filter plus ordered endpoint list. -/
structure Config where
  filter : FilterConfig
  endpoints : List Endpoint
deriving DecidableEq

/-- The coordinator-owned daemon state. -/
structure Daemon where
  running : Bool
  config : Config
  upstream : ConnStatus
  publishers : List PubState
deriving DecidableEq

/-- Control-interface errors named by the spec. -/
inductive CtrlError
  | AlreadyRunning
  | NotRunning
  | ConfigurationInvalid (reason : String)
deriving DecidableEq

/-- Modelled from the spec: launching a publisher for an enabled endpoint
puts it in the `connecting` state. -/
def launchPublisher (e : Endpoint) : PubState :=
  ⟨e.id, .connecting⟩

/-- Modelled from the spec: `start()` fails with `AlreadyRunning` if the
daemon is already started (no state change); otherwise it launches the
upstream reader and one publisher per enabled endpoint. -/
def start (d : Daemon) : Daemon × Option CtrlError :=
  if d.running then (d, some .AlreadyRunning)
  else
    ({ d with
        running := true
        upstream := .connecting
        publishers :=
          (d.config.endpoints.filter (fun e => e.enabled)).map launchPublisher },
      none)

/-- Modelled from the spec: `stop()` gracefully closes the upstream
connection and all publisher sockets; it is idempotent and never fails. -/
def stop (d : Daemon) : Daemon :=
  { d with running := false, upstream := .disconnected, publishers := [] }

/-- `stop()` as seen from the control interface: it reports no error. -/
def stopCtrl (d : Daemon) : Daemon × Option CtrlError :=
  (stop d, none)

/-- Modelled from the spec: `restart()` is `stop()` followed by `start()`. -/
def restart (d : Daemon) : Daemon :=
  (start (stop d)).1

/-- The connection state reported for one configured endpoint: the state of
its live publisher, or `disconnected` when no publisher is running for it. -/
def connState (d : Daemon) (e : Endpoint) : ConnStatus :=
  match d.publishers.find? (fun p => p.endpointId == e.id) with
  | some p => p.status
  | none => .disconnected

/-- The read-only snapshot returned by `status()`. -/
structure StatusReport where
  running : Bool
  upstream : ConnStatus
  endpoints : List (String × ConnStatus)
deriving DecidableEq

/-- Modelled from the spec: `status()` returns the running flag, the
upstream connection state, and the per-endpoint connection state for the
currently configured endpoint set. -/
def status (d : Daemon) : StatusReport :=
  ⟨d.running, d.upstream, d.config.endpoints.map (fun e => (e.id, connState d e))⟩

/-- Modelled from the spec: an endpoint is well formed when its host is
non-empty and its port lies in 1..65535. -/
def validEndpoint (e : Endpoint) : Bool :=
  e.host != "" && decide (1 ≤ e.port) && decide (e.port ≤ 65535)

/-- Modelled from the spec: a filter definition is well formed when every
allow-listed identifier is non-empty (the allow-list is ignored entirely
when the mode is `all`). -/
def validFilter (f : FilterConfig) : Bool :=
  match f.mode with
  | .all => true
  | .specific => f.icaoList.all (fun s => !s.isEmpty)

/-- A configuration is valid when all its endpoints and its filter are. -/
def validConfig (cfg : Config) : Bool :=
  cfg.endpoints.all validEndpoint && validFilter cfg.filter

/-- Modelled from the spec: `updateConfiguration` validates the supplied
configuration at the boundary; a malformed configuration is rejected
synchronously with a reason and the prior configuration stays active,
otherwise the new configuration is persisted and a `restart()` is
triggered so the change takes effect atomically. -/
def updateConfiguration (d : Daemon) (cfg : Config) : Daemon × Option CtrlError :=
  if validConfig cfg then
    (restart { d with config := cfg }, none)
  else
    (d, some (.ConfigurationInvalid "invalid endpoint or filter definition"))

/-- Modelled from the spec: a frame is forwarded iff the daemon is running
and the current filter snapshot accepts its identifier. -/
def processFrame (d : Daemon) (identifier : List Char) : Bool :=
  d.running && accepts d.config.filter identifier

/-! ### Claim theorems for the coordinator -/

/-- Claim C3: `stop()` is idempotent from every starting state; calling it
twice produces no error and leaves the daemon not running. -/
theorem stop_idempotent (d : Daemon) :
    (stopCtrl d).2 = none
    ∧ (stopCtrl (stop d)).2 = none
    ∧ stop (stop d) = stop d
    ∧ (stop (stop d)).running = false := by
  exact ⟨rfl, rfl, rfl, rfl⟩

/-- Claim C7: `start()` on a running daemon fails with `AlreadyRunning` and
changes nothing; on a stopped daemon it succeeds, marks the daemon running,
launches the upstream reader, and launches exactly one publisher per
enabled endpoint. -/
theorem start_spec (d : Daemon) :
    (d.running = true → start d = (d, some CtrlError.AlreadyRunning))
    ∧ (d.running = false →
        (start d).2 = none
        ∧ (start d).1.running = true
        ∧ (start d).1.upstream = ConnStatus.connecting
        ∧ (start d).1.publishers =
            (d.config.endpoints.filter (fun e => e.enabled)).map launchPublisher
        ∧ (start d).1.config = d.config) := by
  constructor
  · intro h
    rw [start, if_pos h]
  · intro h
    rw [start, if_neg (by rw [h]; exact Bool.false_ne_true)]
    exact ⟨rfl, rfl, rfl, rfl, rfl⟩

/-- Witness for C7: a running daemon is rejected, a stopped daemon starts. -/
theorem start_spec_witness :
    start ⟨true, ⟨⟨.all, []⟩, []⟩, .connected, []⟩
      = (⟨true, ⟨⟨.all, []⟩, []⟩, .connected, []⟩, some CtrlError.AlreadyRunning)
    ∧ (start ⟨false, ⟨⟨.all, []⟩, []⟩, .disconnected, []⟩).1.running = true := by
  exact ⟨(start_spec ⟨true, ⟨⟨.all, []⟩, []⟩, .connected, []⟩).1 rfl,
    ((start_spec ⟨false, ⟨⟨.all, []⟩, []⟩, .disconnected, []⟩).2 rfl).2.1⟩

/-- Claim C4: an accepted `updateConfiguration` persists the new
configuration and performs `restart()`; a subsequent `status()` reports
exactly the new endpoint set, every removed endpoint is absent from it, and
every launched publisher targets an endpoint of the new configuration, so no
connection attempt is made to a removed endpoint afterwards. -/
theorem updateConfiguration_spec (d : Daemon) (cfg : Config)
    (h : validConfig cfg = true) :
    ((updateConfiguration d cfg).1.config = cfg)
    ∧ ((updateConfiguration d cfg).1 = restart { d with config := cfg })
    ∧ ((status (updateConfiguration d cfg).1).endpoints.map Prod.fst
        = cfg.endpoints.map Endpoint.id)
    ∧ (∀ i, i ∉ cfg.endpoints.map Endpoint.id →
        i ∉ (status (updateConfiguration d cfg).1).endpoints.map Prod.fst)
    ∧ (∀ p ∈ (updateConfiguration d cfg).1.publishers,
        p.endpointId ∈ cfg.endpoints.map Endpoint.id) := by
  have hupd : updateConfiguration d cfg = (restart { d with config := cfg }, none) := by
    rw [updateConfiguration, if_pos h]
  have hrestart : restart { d with config := cfg } =
      { running := true
        config := cfg
        upstream := .connecting
        publishers := (cfg.endpoints.filter (fun e => e.enabled)).map launchPublisher } := by
    rw [restart, stop, start]
    rfl
  have hmap : (status (updateConfiguration d cfg).1).endpoints.map Prod.fst
      = cfg.endpoints.map Endpoint.id := by
    rw [hupd, hrestart, status]
    simp only [List.map_map]
    rfl
  refine ⟨by rw [hupd, hrestart], by rw [hupd], hmap, ?_, ?_⟩
  · intro i hi
    rw [hmap]
    exact hi
  · intro p hp
    rw [hupd, hrestart] at hp
    simp only [List.mem_map, List.mem_filter] at hp
    obtain ⟨e, ⟨he, _⟩, rfl⟩ := hp
    exact List.mem_map.2 ⟨e, he, rfl⟩

/-- Witness for C4 at a concrete configuration change that removes an
endpoint. -/
theorem updateConfiguration_spec_witness :
    validConfig ⟨⟨.all, []⟩, [⟨"e2", "b", "10.0.0.6", 30003, true⟩]⟩ = true
    ∧ (status (updateConfiguration
        ⟨true, ⟨⟨.all, []⟩, [⟨"e1", "a", "10.0.0.5", 30003, true⟩]⟩,
          .connected, [⟨"e1", .connected⟩]⟩
        ⟨⟨.all, []⟩, [⟨"e2", "b", "10.0.0.6", 30003, true⟩]⟩).1).endpoints.map Prod.fst
      = [⟨"e2", "b", "10.0.0.6", 30003, true⟩].map Endpoint.id := by
  refine ⟨by decide, ?_⟩
  exact (updateConfiguration_spec
    ⟨true, ⟨⟨.all, []⟩, [⟨"e1", "a", "10.0.0.5", 30003, true⟩]⟩,
      .connected, [⟨"e1", .connected⟩]⟩
    ⟨⟨.all, []⟩, [⟨"e2", "b", "10.0.0.6", 30003, true⟩]⟩ (by decide)).2.2.1

/-- Claim C5 counterexample: a configuration save that only changes the
filter does restart the connections.  A running daemon with a connected
endpoint publisher has that publisher re-launched (state `connecting`, not
`connected`) after the save, so the endpoint connections do not remain
unchanged. -/
theorem filter_save_restarts_connections :
    connState
        ⟨true, ⟨⟨.all, []⟩, [⟨"e1", "a", "10.0.0.5", 30003, true⟩]⟩,
          .connected, [⟨"e1", .connected⟩]⟩
        ⟨"e1", "a", "10.0.0.5", 30003, true⟩ = ConnStatus.connected
    ∧ connState
        (updateConfiguration
          ⟨true, ⟨⟨.all, []⟩, [⟨"e1", "a", "10.0.0.5", 30003, true⟩]⟩,
            .connected, [⟨"e1", .connected⟩]⟩
          ⟨⟨.specific, [String.toList "A92F2D"]⟩,
            [⟨"e1", "a", "10.0.0.5", 30003, true⟩]⟩).1
        ⟨"e1", "a", "10.0.0.5", 30003, true⟩ = ConnStatus.connecting
    ∧ (updateConfiguration
          ⟨true, ⟨⟨.all, []⟩, [⟨"e1", "a", "10.0.0.5", 30003, true⟩]⟩,
            .connected, [⟨"e1", .connected⟩]⟩
          ⟨⟨.specific, [String.toList "A92F2D"]⟩,
            [⟨"e1", "a", "10.0.0.5", 30003, true⟩]⟩).1.publishers
        ≠ [⟨"e1", .connected⟩] := by
  refine ⟨rfl, ?_, ?_⟩ <;> decide

/-- Claim C5 (amended): replacing the filter configuration on a save takes
effect through the triggered `restart()`: every subsequently processed
message is judged by the new filter, and the upstream and endpoint
connections are re-established by the restart rather than left unchanged. -/
theorem filter_save_applies_after_restart (d : Daemon) (cfg : Config)
    (h : validConfig cfg = true) :
    ((updateConfiguration d cfg).1.config.filter = cfg.filter)
    ∧ (∀ identifier, processFrame (updateConfiguration d cfg).1 identifier
        = accepts cfg.filter identifier)
    ∧ ((updateConfiguration d cfg).1 = restart { d with config := cfg })
    ∧ ((updateConfiguration d cfg).1.publishers
        = (cfg.endpoints.filter (fun e => e.enabled)).map launchPublisher)
    ∧ ((updateConfiguration d cfg).1.upstream = ConnStatus.connecting) := by
  have hupd : updateConfiguration d cfg = (restart { d with config := cfg }, none) := by
    rw [updateConfiguration, if_pos h]
  have hrestart : restart { d with config := cfg } =
      { running := true
        config := cfg
        upstream := .connecting
        publishers := (cfg.endpoints.filter (fun e => e.enabled)).map launchPublisher } := by
    rw [restart, stop, start]
    rfl
  refine ⟨by rw [hupd, hrestart], ?_, by rw [hupd], by rw [hupd, hrestart],
    by rw [hupd, hrestart]⟩
  intro identifier
  rw [hupd, hrestart, processFrame]
  simp

/-- Witness for C5 (amended) at a concrete filter-only change. -/
theorem filter_save_applies_after_restart_witness :
    validConfig ⟨⟨.specific, [String.toList "A92F2D"]⟩,
      [⟨"e1", "a", "10.0.0.5", 30003, true⟩]⟩ = true
    ∧ processFrame
        (updateConfiguration
          ⟨true, ⟨⟨.all, []⟩, [⟨"e1", "a", "10.0.0.5", 30003, true⟩]⟩,
            .connected, [⟨"e1", .connected⟩]⟩
          ⟨⟨.specific, [String.toList "A92F2D"]⟩,
            [⟨"e1", "a", "10.0.0.5", 30003, true⟩]⟩).1
        (String.toList "B00000")
      = accepts ⟨.specific, [String.toList "A92F2D"]⟩ (String.toList "B00000") := by
  refine ⟨by decide, ?_⟩
  exact (filter_save_applies_after_restart
    ⟨true, ⟨⟨.all, []⟩, [⟨"e1", "a", "10.0.0.5", 30003, true⟩]⟩,
      .connected, [⟨"e1", .connected⟩]⟩
    ⟨⟨.specific, [String.toList "A92F2D"]⟩,
      [⟨"e1", "a", "10.0.0.5", 30003, true⟩]⟩ (by decide)).2.1
    (String.toList "B00000")

/-- Claim C6: a malformed configuration (bad host, port outside 1..65535, or
malformed filter) is rejected synchronously with a reason and leaves the
active configuration unchanged; and `updateConfiguration` never creates an
endpoint with an out-of-range port from a daemon whose endpoints are all in
range. -/
theorem updateConfiguration_invalid (d : Daemon) (cfg : Config)
    (h : validConfig cfg = false) :
    ((updateConfiguration d cfg).1 = d)
    ∧ ((updateConfiguration d cfg).2
        = some (CtrlError.ConfigurationInvalid
            "invalid endpoint or filter definition"))
    ∧ (∀ cfg2 : Config,
        (∀ e ∈ d.config.endpoints, 1 ≤ e.port ∧ e.port ≤ 65535) →
        ∀ e ∈ (updateConfiguration d cfg2).1.config.endpoints,
          1 ≤ e.port ∧ e.port ≤ 65535) := by
  have hrej : updateConfiguration d cfg =
      (d, some (CtrlError.ConfigurationInvalid
        "invalid endpoint or filter definition")) := by
    rw [updateConfiguration, if_neg (by rw [h]; exact Bool.false_ne_true)]
  refine ⟨by rw [hrej], by rw [hrej], ?_⟩
  intro cfg2 hd e he
  rw [updateConfiguration] at he
  by_cases h2 : validConfig cfg2 = true
  · rw [if_pos h2] at he
    have hre : (restart { d with config := cfg2 }).config = cfg2 := by
      rw [restart, stop, start]
      rfl
    rw [hre] at he
    have hall : cfg2.endpoints.all validEndpoint = true := by
      rw [validConfig, Bool.and_eq_true] at h2
      exact h2.1
    rw [List.all_eq_true] at hall
    have hv := hall e he
    rw [validEndpoint, Bool.and_eq_true, Bool.and_eq_true] at hv
    exact ⟨of_decide_eq_true hv.1.2, of_decide_eq_true hv.2⟩
  · rw [if_neg h2] at he
    exact hd e he

/-- Witness for C6: a configuration carrying port 70000 is rejected and the
prior configuration stays active. -/
theorem updateConfiguration_invalid_witness :
    validConfig ⟨⟨.all, []⟩, [⟨"e9", "x", "10.0.0.9", 70000, true⟩]⟩ = false
    ∧ (updateConfiguration
        ⟨true, ⟨⟨.all, []⟩, [⟨"e1", "a", "10.0.0.5", 30003, true⟩]⟩,
          .connected, [⟨"e1", .connected⟩]⟩
        ⟨⟨.all, []⟩, [⟨"e9", "x", "10.0.0.9", 70000, true⟩]⟩).1
      = ⟨true, ⟨⟨.all, []⟩, [⟨"e1", "a", "10.0.0.5", 30003, true⟩]⟩,
          .connected, [⟨"e1", .connected⟩]⟩ := by
  refine ⟨by decide, ?_⟩
  exact (updateConfiguration_invalid
    ⟨true, ⟨⟨.all, []⟩, [⟨"e1", "a", "10.0.0.5", 30003, true⟩]⟩,
      .connected, [⟨"e1", .connected⟩]⟩
    ⟨⟨.all, []⟩, [⟨"e9", "x", "10.0.0.9", 70000, true⟩]⟩ (by decide)).1

/-! ### Endpoint registry operations, modelled from the spec -/

/-- Modelled from the spec: the server-side handler behind the front end's
`updateEndpoint` (PUT of name/ip/port/enabled for one endpoint id) is not
among the available sources.  It rewrites the mutable attributes of the
endpoint with the given id and touches nothing else; the identifier itself
is taken from the URL and never rewritten. -/
def updateEndpointReg (reg : List Endpoint) (endpointId name ip : String)
    (port : Nat) (enabled : Bool) : List Endpoint :=
  reg.map (fun e =>
    if e.id = endpointId then
      { e with name := name, host := ip, port := port, enabled := enabled }
    else e)

/-- Modelled from the spec: the handler behind the front end's
`toggleEndpoint` flips the enabled flag of the endpoint with the given id. -/
def toggleEndpointReg (reg : List Endpoint) (endpointId : String) :
    List Endpoint :=
  reg.map (fun e => if e.id = endpointId then { e with enabled := !e.enabled } else e)

/-- Claim C8: no configuration update or toggle ever changes an endpoint's
identifier, an endpoint whose id is not the targeted one is completely
unchanged, and two distinct endpoints may share the same host:port pair
while being tracked independently. -/
theorem endpoint_id_immutable (reg : List Endpoint)
    (endpointId name ip : String) (port : Nat) (enabled : Bool) :
    ((updateEndpointReg reg endpointId name ip port enabled).map Endpoint.id
      = reg.map Endpoint.id)
    ∧ ((toggleEndpointReg reg endpointId).map Endpoint.id = reg.map Endpoint.id)
    ∧ (∀ e ∈ reg, e.id ≠ endpointId →
        e ∈ updateEndpointReg reg endpointId name ip port enabled)
    ∧ updateEndpointReg
        [⟨"id1", "a", "10.0.0.5", 30003, true⟩,
         ⟨"id2", "b", "10.0.0.5", 30003, true⟩]
        "id1" "a" "10.0.0.5" 9999 true
      = [⟨"id1", "a", "10.0.0.5", 9999, true⟩,
         ⟨"id2", "b", "10.0.0.5", 30003, true⟩] := by
  refine ⟨?_, ?_, ?_, by decide⟩
  · rw [updateEndpointReg, List.map_map]
    apply List.map_congr_left
    intro e _
    by_cases h : e.id = endpointId <;> simp [h]
  · rw [toggleEndpointReg, List.map_map]
    apply List.map_congr_left
    intro e _
    by_cases h : e.id = endpointId <;> simp [h]
  · intro e he hne
    rw [updateEndpointReg]
    refine List.mem_map.2 ⟨e, he, ?_⟩
    rw [if_neg hne]

/-- Witness for C8: updating one of two endpoints that share a host:port
pair leaves the other untouched. -/
theorem endpoint_id_immutable_witness :
    ⟨"id2", "b", "10.0.0.5", 30003, true⟩
      ∈ updateEndpointReg
          [⟨"id1", "a", "10.0.0.5", 30003, true⟩,
           ⟨"id2", "b", "10.0.0.5", 30003, true⟩]
          "id1" "a" "10.0.0.5" 9999 true := by
  exact (endpoint_id_immutable
    [⟨"id1", "a", "10.0.0.5", 30003, true⟩,
     ⟨"id2", "b", "10.0.0.5", 30003, true⟩]
    "id1" "a" "10.0.0.5" 9999 true).2.2.1
    ⟨"id2", "b", "10.0.0.5", 30003, true⟩ (by decide) (by decide)

/-! ### The endpoint list rendering (`createEndpointElement`) -/

/-- A JavaScript value as it may arrive for the `enabled` field: a string, a
boolean, or absent. -/
inductive JSValue
  | str (s : String)
  | bool (b : Bool)
  | undef
deriving DecidableEq

/-- The JavaScript test `endpoint.enabled === 'true' || endpoint.enabled === true`. -/
def enabledTruthy : JSValue → Bool
  | .str s => s == "true"
  | .bool b => b
  | .undef => false

/-- The per-endpoint status object of the API payload. -/
structure EndpointStatusView where
  connected : Bool
  error : Option String
deriving DecidableEq

/-- An endpoint as rendered by `createEndpointElement`. -/
structure EndpointView where
  id : String
  name : String
  ip : String
  port : Nat
  enabled : JSValue
  status : Option EndpointStatusView
deriving DecidableEq

/-- The JavaScript expression
`endpoint.status && endpoint.status.error ? \x7b space (error) \x7d : ''`:
the suffix is appended only when the status object exists and its error
field is truthy (a non-empty string). -/
def errorSuffix : Option EndpointStatusView → String
  | some st =>
    match st.error with
    | some m => if m = "" then "" else " (" ++ m ++ ")"
    | none => ""
  | none => ""

/-- The JavaScript test `endpoint.status && endpoint.status.connected`. -/
def statusConnectedTruthy : Option EndpointStatusView → Bool
  | some st => st.connected
  | none => false

theorem statusConnectedTruthy_some (st : EndpointStatusView) :
    statusConnectedTruthy (some st) = st.connected := rfl

/-- Embedding of the status text chosen by `createEndpointElement`:
`Disabled` when the enabled field is neither the string `true` nor the
boolean `true`; otherwise `Connected` when the status object exists with
`connected` truthy; otherwise `Disconnected` with the error suffix. -/
def createEndpointElementStatusText (e : EndpointView) : String :=
  if enabledTruthy e.enabled = false then "Disabled"
  else if statusConnectedTruthy e.status then "Connected"
  else "Disconnected" ++ errorSuffix e.status

theorem disconnected_append_ne_connected (s : String) :
    "Disconnected" ++ s ≠ "Connected" := by
  intro h
  have h2 := congrArg String.length h
  rw [String.length_append] at h2
  have h3 : ("Disconnected" : String).length = 12 := rfl
  have h4 : ("Connected" : String).length = 9 := rfl
  omega

/-- Claim C9: the rendered endpoint state gives precedence to the enabled
flag: a not-enabled endpoint shows `Disabled` even when connected; exactly
the enabled endpoints whose status object reports `connected` show
`Connected`; every other enabled endpoint shows `Disconnected` with its
error message appended when a non-empty one is present. -/
theorem createEndpointElement_state (e : EndpointView) :
    (enabledTruthy e.enabled = false →
      createEndpointElementStatusText e = "Disabled")
    ∧ (createEndpointElementStatusText e = "Connected" ↔
        enabledTruthy e.enabled = true
        ∧ ∃ st, e.status = some st ∧ st.connected = true)
    ∧ (∀ st, enabledTruthy e.enabled = true → e.status = some st →
        st.connected = false →
        createEndpointElementStatusText e
          = "Disconnected" ++ errorSuffix (some st))
    ∧ (enabledTruthy e.enabled = true → e.status = none →
        createEndpointElementStatusText e = "Disconnected") := by
  refine ⟨?_, ?_, ?_, ?_⟩
  · intro h
    rw [createEndpointElementStatusText, if_pos h]
  · constructor
    · intro h
      by_cases hen : enabledTruthy e.enabled = false
      · rw [createEndpointElementStatusText, if_pos hen] at h
        exact absurd h (by decide)
      · rw [Bool.not_eq_false] at hen
        refine ⟨hen, ?_⟩
        rw [createEndpointElementStatusText,
          if_neg (by rw [hen]; exact (by decide : ¬(true = false)))] at h
        cases hst : e.status with
        | none =>
          rw [hst] at h
          rw [if_neg (by exact (by decide : ¬(statusConnectedTruthy none = true)))] at h
          exact absurd h (disconnected_append_ne_connected _)
        | some st =>
          rw [hst, statusConnectedTruthy_some] at h
          cases hc : st.connected with
          | false =>
            rw [hc] at h
            rw [if_neg (by exact Bool.false_ne_true)] at h
            exact absurd h (disconnected_append_ne_connected _)
          | true =>
            exact ⟨st, rfl, hc⟩
    · rintro ⟨hen, st, hst, hc⟩
      rw [createEndpointElementStatusText,
        if_neg (by rw [hen]; exact (by decide : ¬(true = false))), hst,
        statusConnectedTruthy_some, hc, if_pos rfl]
  · intro st hen hst hc
    rw [createEndpointElementStatusText,
      if_neg (by rw [hen]; exact (by decide : ¬(true = false))), hst,
      statusConnectedTruthy_some, hc,
      if_neg (by exact Bool.false_ne_true)]
  · intro hen hst
    rw [createEndpointElementStatusText,
      if_neg (by rw [hen]; exact (by decide : ¬(true = false))), hst,
      if_neg (by exact (by decide : ¬(statusConnectedTruthy none = true)))]
    rfl

/-- Witness for C9: a connected-but-disabled endpoint renders `Disabled`,
and an enabled disconnected endpoint with an error renders it appended. -/
theorem createEndpointElement_state_witness :
    createEndpointElementStatusText
        ⟨"e1", "a", "10.0.0.5", 30003, .bool false, some ⟨true, none⟩⟩
      = "Disabled"
    ∧ createEndpointElementStatusText
        ⟨"e2", "b", "10.0.0.6", 30003, .str "true",
          some ⟨false, some "timeout"⟩⟩
      = "Disconnected" ++ errorSuffix (some ⟨false, some "timeout"⟩) := by
  refine ⟨?_, ?_⟩
  · exact (createEndpointElement_state
      ⟨"e1", "a", "10.0.0.5", 30003, .bool false, some ⟨true, none⟩⟩).1 rfl
  · exact (createEndpointElement_state
      ⟨"e2", "b", "10.0.0.6", 30003, .str "true",
        some ⟨false, some "timeout"⟩⟩).2.2.1 ⟨false, some "timeout"⟩ rfl rfl rfl

end AISWiFiManager
